import Mathlib

/-!
# Verification of the ntex-mqtt protocol core (v5 sink, router, default control)

Shallow embedding of the four source files `src/v5/sink.rs`, `src/v5/router.rs`,
`src/v5/default.rs`, `src/v3/default.rs`.  Supporting types that live in
`src/v5/shared.rs` (not part of the source tree we were given) are modelled
from the specification and marked as such in their doc comments.

Machine integers: packet ids are `u16` in the source; they are embedded as
`Nat`, with the non-zero constraints carried as hypotheses where relevant.
Maps (`HashMap`) are embedded as association lists; `VecDeque` as `List`
(front = head).  Fallible paths return `Option`/explicit result inductives.
-/

namespace NtexMqtt

/-- Modelled from the spec: `AckType ∈ {Publish, Publish2, Subscribe, Unsubscribe}`
(declared in `src/v5/shared.rs`, which is not in the given sources). -/
inductive AckType where
  | publish
  | publish2
  | subscribe
  | unsubscribe
deriving DecidableEq, Repr

/-- Modelled from the spec: `tp.name()` for an `AckType` (used in the
`Unexpected(type, expected.name())` error; the spec's scenario S6 shows
`Unexpected(PubAck, "Subscribe")`, so the name is the variant name). -/
def AckType.name : AckType → String
  | .publish => "Publish"
  | .publish2 => "Publish2"
  | .subscribe => "Subscribe"
  | .unsubscribe => "Unsubscribe"

/-- Modelled from the spec: the packet type of an ack envelope, one of
`PublishAck`, `PublishAck2`, `SubscribeAck`, `UnsubscribeAck` (spec §3
"Ack variants"). -/
inductive PacketType where
  | publishAck
  | publishAck2
  | subscribeAck
  | unsubscribeAck
deriving DecidableEq, Repr

/-- Modelled from the spec: the generic `Ack` envelope exposing `packet_id()`
and `packet_type()` (spec §3).  The reason code and properties are not
inspected by `pkt_ack`, so they are not carried here. -/
structure Ack where
  packet_id : Nat
  packet_type : PacketType
deriving DecidableEq, Repr

/-- Modelled from the spec: `is_match(AckType)` relates an ack packet type to
the `AckType` recorded in the inflight map (spec §3: each ack variant pairs
with the like-named `AckType`). -/
def Ack.is_match (pkt : Ack) (tp : AckType) : Bool :=
  match pkt.packet_type, tp with
  | .publishAck, .publish => true
  | .publishAck2, .publish2 => true
  | .subscribeAck, .subscribe => true
  | .unsubscribeAck, .unsubscribe => true
  | _, _ => false

/-- `ProtocolError` as used by `pkt_ack` (`src/v5/sink.rs:125`): only the
`Unexpected(packet type, expected name)` variant is reachable there. -/
inductive ProtocolError where
  | unexpected (tp : PacketType) (expected : String)
deriving DecidableEq, Repr

/-- Modelled from the spec: the `Queues` record (spec §3).  `inflight` maps a
packet id to its `AckType` (the one-shot sender is represented implicitly:
`pkt_ack` ignores a closed receiver, so only the delivery event matters and is
reported in `PktAckOutcome.delivered`).  `inflight_order` is the send-order
deque, `waiters` the admission FIFO where each entry records whether its
receiver is still alive (i.e. whether `tx.send(())` would succeed). -/
structure Queues where
  inflight : List (Nat × AckType)
  inflight_order : List Nat
  waiters : List Bool
deriving DecidableEq, Repr

/-- Remove the first entry with the given key from an association list
(embeds `HashMap::remove`; keys are unique in the source map). -/
def removeFirst (id : Nat) : List (Nat × AckType) → List (Nat × AckType)
  | [] => []
  | e :: rest => if e.1 = id then rest else e :: removeFirst id rest

/-- The waiter wakeup loop of `pkt_ack` (`src/v5/sink.rs:133-137`):
pop waiters until one `send(())` succeeds or the FIFO is empty.
Returns the remaining FIFO and whether some waiter was signalled. -/
def popWaiters : List Bool → List Bool × Bool
  | [] => ([], false)
  | w :: ws => if w then (ws, true) else popWaiters ws

/-- The observable outcome of one `pkt_ack` call: the queues it leaves behind,
the id whose one-shot received the ack (if any), whether a waiter was
signalled, and the returned `Result` (`none` = `Ok(())`). -/
structure PktAckOutcome where
  queues : Queues
  delivered : Option Nat
  woken : Bool
  res : Option ProtocolError
deriving DecidableEq, Repr

/-- `MqttSink::credit` (`src/v5/sink.rs:31-34`): `cap - q.inflight.len()`, a
plain unchecked `usize` subtraction.  When the inflight count exceeds `cap`
the subtraction underflows, a program error in Rust (panic with overflow
checks, two's-complement wrap without); that case is embedded as `none`.
There is no saturation in the source. -/
def credit (cap : Nat) (inflightLen : Nat) : Option Nat :=
  if inflightLen ≤ cap then some (cap - inflightLen) else none

/-- The `loop` body of `MqttSink::pkt_ack` (`src/v5/sink.rs:103-147`),
structurally recursive on `inflight_order`:
pop the head; a sentinel `0` is skipped; a head different from the ack's id
logs and returns `Ok` (the head stays popped); a matching head removes the
inflight entry, errors with `Unexpected` if the ack type does not match,
otherwise delivers the ack and signals one waiter. -/
def pktAckLoop (pkt : Ack) (inflight : List (Nat × AckType)) (waiters : List Bool) :
    List Nat → PktAckOutcome
  | [] => ⟨⟨inflight, [], waiters⟩, none, false, none⟩
  | idx :: rest =>
    if idx = 0 then
      pktAckLoop pkt inflight waiters rest
    else if idx ≠ pkt.packet_id then
      ⟨⟨inflight, rest, waiters⟩, none, false, none⟩
    else
      match inflight.lookup idx with
      | none => ⟨⟨inflight, rest, waiters⟩, none, false, none⟩
      | some tp =>
        if ¬ pkt.is_match tp then
          ⟨⟨removeFirst idx inflight, rest, waiters⟩, none, false,
            some (.unexpected pkt.packet_type tp.name)⟩
        else
          let pw := popWaiters waiters
          ⟨⟨removeFirst idx inflight, rest, pw.1⟩, some idx, pw.2, none⟩

/-- `MqttSink::pkt_ack` (`src/v5/sink.rs:102-148`), run inside `with_queues`. -/
def pkt_ack (q : Queues) (pkt : Ack) : PktAckOutcome :=
  pktAckLoop pkt q.inflight q.waiters q.inflight_order

/-- Reason code of a `PublishAck` (PUBACK/PUBREC); the codec is external to
the core (spec §1), so only the distinction the sink inspects is embedded:
`Success` versus the non-success codes. -/
inductive PublishAckReason where
  | success
  | unspecifiedError
  | notAuthorized
deriving DecidableEq, Repr

/-- One turn of `timeout(_timeout, poll_fn(|cx| rx.poll_recv(cx))).await` in the
publish loops (`src/v5/sink.rs:339`): the ack arrived with some reason code,
the one-shot sender was dropped (`closed`), or the timeout fired (`tout`). -/
inductive RecvOutcome where
  | ack (reason : PublishAckReason)
  | closed
  | tout
deriving DecidableEq, Repr

/-- Result of the QoS-1 publish future (`PublishQos1Error` plus success;
`pending` embeds a future that has not resolved within the modelled event
list). -/
inductive Qos1Result where
  | ok
  | fail (reason : PublishAckReason)
  | disconnected
  | packetIdInUse (id : Nat)
  | encodeErr
  | pending
deriving DecidableEq, Repr

/-- The `loop` of `send_at_least_once_inner` (`src/v5/sink.rs:330-358`):
each iteration encodes the PUBLISH (recording its `dup` flag), then awaits the
ack with a timeout.  `encodeOk k` tells whether the k-th `io.encode` call
succeeds; `recvs` drives the successive await outcomes.  On timeout the source
sets `pkt.dup = true` and loops.  Returns the result and the `dup` flags of the
PUBLISH packets passed to `io.encode`, in order. -/
def qos1Loop (encodeOk : Nat → Bool) : Bool → Nat → List RecvOutcome → Qos1Result × List Bool
  | dup, k, [] => (if encodeOk k then .pending else .encodeErr, [dup])
  | dup, k, r :: rest =>
    if encodeOk k then
      match r with
      | .ack .success => (.ok, [dup])
      | .ack reason => (.fail reason, [dup])
      | .closed => (.disconnected, [dup])
      | .tout =>
        let o := qos1Loop encodeOk true (k + 1) rest
        (o.1, dup :: o.2)
    else (.encodeErr, [dup])

/-- Outcome of `send_at_least_once_inner`: the queues as left by the future's
own `with_queues` mutations (registration is its only one — all later queue
mutation is `pkt_ack`'s, modelled separately), the result, and the `dup` flags
of the encoded PUBLISH packets. -/
structure Qos1Out where
  queues : Queues
  result : Qos1Result
  encodes : List Bool
deriving DecidableEq, Repr

/-- `PublishBuilder::send_at_least_once_inner` (`src/v5/sink.rs:296-360`).
`idx` is the resolved packet id (the caller-supplied id, or the fresh non-zero
id `next_id()` returned; `next_id` lives in `src/v5/shared.rs`, outside the
given sources, so the resolved id is a parameter here).  `dup0` is the builder's
`dup` flag.  Registration: if `idx` is already inflight the future fails with
`PacketIdInUse` and mutates nothing; otherwise the entry is inserted and `idx`
appended to `inflight_order`, then the encode/await loop runs. -/
def send_at_least_once_inner (q : Queues) (idx : Nat) (dup0 : Bool)
    (encodeOk : Nat → Bool) (recvs : List RecvOutcome) : Qos1Out :=
  if (q.inflight.lookup idx).isSome then
    ⟨q, .packetIdInUse idx, []⟩
  else
    let q' : Queues := ⟨(idx, .publish) :: q.inflight, q.inflight_order ++ [idx], q.waiters⟩
    let o := qos1Loop encodeOk dup0 0 recvs
    ⟨q', o.1, o.2⟩

/-- Result of the QoS-2 publish future (`PublishQos2Error` plus success and
`pending` for a future that has not resolved within the modelled events). -/
inductive Qos2Result where
  | ok
  | fail (reason : PublishAckReason)
  | disconnected
  | packetIdInUse (id : Nat)
  | encodeErr
  | pending
deriving DecidableEq, Repr

/-- The phase-2 loop of `send_exactly_once_inner` (`src/v5/sink.rs:461-487`):
each iteration encodes the PUBREL (`encRel k` is the k-th encode result), then
awaits PUBCOMP; `Success` resolves `ok`, another reason `fail`, a dropped
sender `disconnected`, a timeout retries (phase 2 does not touch `dup`).
Returns the result and the number of PUBREL encode calls. -/
def qos2Phase2Loop (encRel : Nat → Bool) : Nat → List RecvOutcome → Qos2Result × Nat
  | k, [] => (if encRel k then .pending else .encodeErr, 1)
  | k, r :: rest =>
    if encRel k then
      match r with
      | .ack .success => (.ok, 1)
      | .ack reason => (.fail reason, 1)
      | .closed => (.disconnected, 1)
      | .tout =>
        let o := qos2Phase2Loop encRel (k + 1) rest
        (o.1, o.2 + 1)
    else (.encodeErr, 1)

/-- Observable outcome of `send_exactly_once_inner`: the result, whether
phase 2 was entered (the PUBREL re-registration was reached and succeeded),
the number of PUBREL encodes, and the `dup` flags of the encoded PUBLISH
packets. -/
structure Qos2Out where
  result : Qos2Result
  phase2Entered : Bool
  pubrelEncodes : Nat
  publishDups : List Bool
deriving DecidableEq, Repr

/-- The phase-1 loop of `send_exactly_once_inner` (`src/v5/sink.rs:424-499`).
On receiving the phase-1 ack (PUBREC) the source builds `pkt2` with
`reason_code: Success` unconditionally — the received reason code `rc` is
never inspected (`src/v5/sink.rs:435-443`) — re-registers `idx` with
`AckType::Publish2` against `inflight2` (the inflight map as seen at that
moment: the delivering `pkt_ack` has already removed the phase-1 entry,
which happens outside this future), and enters the PUBREL loop. -/
def qos2Phase1Loop (idx : Nat) (inflight2 : List (Nat × AckType))
    (encPub encRel : Nat → Bool) (p2 : List RecvOutcome) :
    Bool → Nat → List RecvOutcome → Qos2Out
  | dup, k, [] =>
    ⟨if encPub k then .pending else .encodeErr, false, 0, [dup]⟩
  | dup, k, r :: rest =>
    if encPub k then
      match r with
      | .closed => ⟨.disconnected, false, 0, [dup]⟩
      | .tout =>
        let o := qos2Phase1Loop idx inflight2 encPub encRel p2 true (k + 1) rest
        ⟨o.result, o.phase2Entered, o.pubrelEncodes, dup :: o.publishDups⟩
      | .ack _rc =>
        if (inflight2.lookup idx).isSome then ⟨.packetIdInUse idx, false, 0, [dup]⟩
        else
          let o := qos2Phase2Loop encRel 0 p2
          ⟨o.1, true, o.2, [dup]⟩
    else ⟨.encodeErr, false, 0, [dup]⟩

/-- `PublishBuilder::send_exactly_once_inner` (`src/v5/sink.rs:390-501`).
As for QoS-1: `idx` is the resolved non-zero packet id, `dup0` the builder's
`dup` flag; registration against `q` may fail with `PacketIdInUse`.  `p1`
drives the PUBLISH/PUBREC loop and `p2` the PUBREL/PUBCOMP loop. -/
def send_exactly_once_inner (q : Queues) (idx : Nat) (dup0 : Bool)
    (inflight2 : List (Nat × AckType)) (encPub encRel : Nat → Bool)
    (p1 p2 : List RecvOutcome) : Qos2Out :=
  if (q.inflight.lookup idx).isSome then
    ⟨.packetIdInUse idx, false, 0, []⟩
  else
    qos2Phase1Loop idx inflight2 encPub encRel p2 dup0 0 p1

/-- The `ControlMessage` variants common to v3 and v5 (`Auth` is v5-only;
the `ControlMessage` type itself lives in `src/v3/control.rs` /
`src/v5/control.rs`, outside the given sources — modelled from the spec §4.4
variant list). -/
inductive ControlMessage where
  | ping
  | disconnect
  | subscribe
  | unsubscribe
  | closed
  | error
  | protocolError
  | auth
deriving DecidableEq, Repr

/-- Modelled from the spec: the v3 `ControlResult`, either the variant's
built-in ack (`pkt.ack()`) or `ControlResult { kind: Disconnect }`
(spec §4.4; `src/v3/control.rs` is outside the given sources). -/
inductive ControlResultV3 where
  | builtinAck (m : ControlMessage)
  | disconnect
deriving DecidableEq, Repr

/-- The v5 disconnect reason codes the default service uses (the codec is
external; only `UnspecifiedError` is reachable from `src/v5/default.rs`). -/
inductive DisconnectReasonCode where
  | normalDisconnection
  | unspecifiedError
deriving DecidableEq, Repr

/-- Modelled from the spec: the v5 `ControlResult`, either the variant's
built-in ack or a `Disconnect` carrying a reason code
(`pkt.disconnect_with(Disconnect::new(rc))`; `src/v5/control.rs` is outside
the given sources). -/
inductive ControlResultV5 where
  | builtinAck (m : ControlMessage)
  | disconnectWith (rc : DisconnectReasonCode)
deriving DecidableEq, Repr

/-- The v3 `DefaultControlService::call` (`src/v3/default.rs:82-94`):
`Ping`, `Disconnect` and `Closed` get their built-in acks; every other
variant yields `ControlResult { result: ControlResultKind::Disconnect }`. -/
def v3ControlCall : ControlMessage → ControlResultV3
  | .ping => .builtinAck .ping
  | .disconnect => .builtinAck .disconnect
  | .closed => .builtinAck .closed
  | _ => .disconnect

/-- The v5 `DefaultControlService::call` (`src/v5/default.rs:82-93`):
only `Ping` and `Disconnect` get their built-in acks; every other variant —
including `Closed` — yields `disconnect_with(Disconnect::new(UnspecifiedError))`. -/
def v5ControlCall : ControlMessage → ControlResultV5
  | .ping => .builtinAck .ping
  | .disconnect => .builtinAck .disconnect
  | _ => .disconnectWith .unspecifiedError

/-- The router `Inner` state affected by `create_handler`
(`src/v5/router.rs:131-138`): the `creating` flag, the shared `LocalWaker`
(observed as the number of `wake()` calls), and the lazily instantiated
handler slots (a slot holds `some ()` once a handler service is cached). -/
structure RouterInner where
  creating : Bool
  wakeCount : Nat
  handlers : List (Option Unit)
deriving DecidableEq, Repr

/-- `RouterService::create_handler` (`src/v5/router.rs:141-163`).
`factoryRes` is the outcome of `factories[idx].new_service(..).await`,
`readyRes` the outcome of the readiness wait, `callRes` the handler's own
response.  The source sets `creating = true` up-front; on factory failure the
`?` operator returns the error at once — without waking the waker or
resetting `creating`; on readiness failure and on success it wakes the waker
and resets `creating` (storing the handler only on success). -/
def create_handler {ε ρ : Type} (factoryRes : Except ε Unit) (readyRes : Except ε Unit)
    (callRes : Except ε ρ) (idx : Nat) (st : RouterInner) :
    RouterInner × Except ε (Option ρ) :=
  let st1 : RouterInner := { st with creating := true }
  match factoryRes with
  | .error e => (st1, .error e)
  | .ok _ =>
    match readyRes with
    | .error e =>
      ({ st1 with wakeCount := st1.wakeCount + 1, creating := false }, .error e)
    | .ok _ =>
      let st2 : RouterInner :=
        { st1 with wakeCount := st1.wakeCount + 1, creating := false,
                   handlers := st1.handlers.set idx (some ()) }
      match callRes with
      | .error e => (st2, .error e)
      | .ok r => (st2, .ok (some r))

/-- Topics as the router sees them (`Path<ByteString>`; the canonical form a
`recognize` hit leaves in the request). -/
abbrev Topic := String

/-- Where `RouterService::call` dispatches a publish: to the handler at a
given index with the (possibly rewritten) topic, or to the default service. -/
inductive Dispatch where
  | handler (idx : Nat) (topic : Topic)
  | toDefault
deriving DecidableEq, Repr

/-- The alias cache of the router: `topic_alias → (handler index, canonical
topic)` (`src/v5/router.rs:135`), as an association map with insert-overwrite
semantics. -/
structure RouterAliases where
  aliases : List (Nat × Nat × Topic)
deriving DecidableEq, Repr

/-- `HashMap::insert` on the alias cache. -/
def RouterAliases.insert (st : RouterAliases) (a : Nat) (idx : Nat) (t : Topic) :
    RouterAliases :=
  ⟨(a, idx, t) :: st.aliases.filter (fun p => p.1 ≠ a)⟩

/-- `RouterService::call` (`src/v5/router.rs:196-225`), abstracted over the
external pattern matcher: `recognize t` returns the handler index and the
canonical topic the matcher leaves in the request, or `none` on no match
(`ntex::router` is an external collaborator per spec §1).  A non-empty topic
is pattern-matched; on a hit the alias (if any) is recorded and the publish
dispatched to the matched handler (whether the slot is filled or created
lazily, the target index is the same).  An empty topic with an alias is
served from the alias cache without consulting `recognize`; a cache miss, or
no match, falls through to the default service. -/
def routerCall (recognize : Topic → Option (Nat × Topic)) (st : RouterAliases)
    (topic : Topic) (al : Option Nat) : RouterAliases × Dispatch :=
  if topic ≠ "" then
    match recognize topic with
    | some (idx, ct) =>
      let st' := match al with
        | some a => st.insert a idx ct
        | none => st
      (st', .handler idx ct)
    | none => (st, .toDefault)
  else
    match al with
    | some a =>
      match st.aliases.lookup a with
      | some (idx, t) => (st, .handler idx t)
      | none => (st, .toDefault)
    | none => (st, .toDefault)

end NtexMqtt

namespace NtexMqtt

/-- C1 (counterexample): with `inflight_order = [5]` (head non-zero, different
from the ack id 7) `pkt_ack` returns `Ok` but `inflight_order` is NOT left
unchanged — the head 5 has been popped. -/
theorem pkt_ack_mismatch_pops_cex :
    (pkt_ack ⟨[(5, .publish)], [5], []⟩ ⟨7, .publishAck⟩).res = none ∧
    (pkt_ack ⟨[(5, .publish)], [5], []⟩ ⟨7, .publishAck⟩).queues.inflight_order = [] ∧
    (pkt_ack ⟨[(5, .publish)], [5], []⟩ ⟨7, .publishAck⟩).queues.inflight_order ≠ [5] := by
  decide

/-- C1 (amended): when `inflight_order` has a non-zero head different from the
ack's packet id, `pkt_ack` returns `Ok`, leaves the `inflight` map and the
waiters unchanged, delivers nothing and signals no waiter, but the head of
`inflight_order` is popped: only the tail remains. -/
theorem pkt_ack_mismatch_behavior (q : Queues) (pkt : Ack) (idx : Nat) (rest : List Nat)
    (horder : q.inflight_order = idx :: rest) (hnz : idx ≠ 0) (hne : idx ≠ pkt.packet_id) :
    (pkt_ack q pkt).res = none ∧
    (pkt_ack q pkt).queues.inflight = q.inflight ∧
    (pkt_ack q pkt).queues.inflight_order = rest ∧
    (pkt_ack q pkt).queues.waiters = q.waiters ∧
    (pkt_ack q pkt).delivered = none ∧
    (pkt_ack q pkt).woken = false := by
  simp only [pkt_ack, horder, pktAckLoop, if_neg hnz, ne_eq, hne, not_false_eq_true, if_pos]
  simp

/-- C1 witness: the amended behaviour at a concrete state. -/
theorem pkt_ack_mismatch_behavior_witness :
    (pkt_ack ⟨[(5, .publish)], [5, 9], [true]⟩ ⟨7, .publishAck⟩).res = none ∧
    (pkt_ack ⟨[(5, .publish)], [5, 9], [true]⟩ ⟨7, .publishAck⟩).queues.inflight
      = [(5, .publish)] ∧
    (pkt_ack ⟨[(5, .publish)], [5, 9], [true]⟩ ⟨7, .publishAck⟩).queues.inflight_order = [9] ∧
    (pkt_ack ⟨[(5, .publish)], [5, 9], [true]⟩ ⟨7, .publishAck⟩).queues.waiters = [true] ∧
    (pkt_ack ⟨[(5, .publish)], [5, 9], [true]⟩ ⟨7, .publishAck⟩).delivered = none ∧
    (pkt_ack ⟨[(5, .publish)], [5, 9], [true]⟩ ⟨7, .publishAck⟩).woken = false :=
  pkt_ack_mismatch_behavior ⟨[(5, .publish)], [5, 9], [true]⟩ ⟨7, .publishAck⟩ 5 [9]
    rfl (by decide) (by decide)

/-- C7: when the head of `inflight_order` equals the ack's (non-zero) packet id
and the stored inflight entry's `AckType` does not match the ack's packet type
via `is_match`, `pkt_ack` fails with `Unexpected(ack packet type, expected name)`. -/
theorem pkt_ack_unexpected (q : Queues) (pkt : Ack) (rest : List Nat) (tp : AckType)
    (horder : q.inflight_order = pkt.packet_id :: rest) (hnz : pkt.packet_id ≠ 0)
    (hfound : q.inflight.lookup pkt.packet_id = some tp)
    (hmatch : pkt.is_match tp = false) :
    (pkt_ack q pkt).res = some (.unexpected pkt.packet_type tp.name) := by
  simp [pkt_ack, horder, pktAckLoop, hnz, hfound, hmatch]

/-- C7 witness: a SUBACK-typed inflight entry hit by a PUBACK. -/
theorem pkt_ack_unexpected_witness :
    (pkt_ack ⟨[(3, .subscribe)], [3], []⟩ ⟨3, .publishAck⟩).res
      = some (.unexpected .publishAck "Subscribe") :=
  pkt_ack_unexpected ⟨[(3, .subscribe)], [3], []⟩ ⟨3, .publishAck⟩ [] .subscribe
    rfl (by decide) (by decide) (by decide)

/-- C8 (counterexample): after `pkt_ack` fails with `Unexpected` the queues are
NOT unchanged — the inflight entry for the acked id has been removed and its id
no longer heads `inflight_order`. -/
theorem pkt_ack_unexpected_removes_cex :
    (pkt_ack ⟨[(3, .subscribe)], [3], [true]⟩ ⟨3, .publishAck⟩).res
      = some (.unexpected .publishAck "Subscribe") ∧
    (pkt_ack ⟨[(3, .subscribe)], [3], [true]⟩ ⟨3, .publishAck⟩).queues.inflight = [] ∧
    (pkt_ack ⟨[(3, .subscribe)], [3], [true]⟩ ⟨3, .publishAck⟩).queues.inflight_order = [] := by
  decide

/-- C8 (amended): when `pkt_ack` fails with `Unexpected`, the inflight entry
for the acked id has already been removed and its id popped from
`inflight_order`; the waiters FIFO is untouched, no waiter has been signalled,
and the ack has not been delivered to any one-shot. -/
theorem pkt_ack_unexpected_state (q : Queues) (pkt : Ack) (rest : List Nat) (tp : AckType)
    (horder : q.inflight_order = pkt.packet_id :: rest) (hnz : pkt.packet_id ≠ 0)
    (hfound : q.inflight.lookup pkt.packet_id = some tp)
    (hmatch : pkt.is_match tp = false) :
    (pkt_ack q pkt).res = some (.unexpected pkt.packet_type tp.name) ∧
    (pkt_ack q pkt).queues.inflight = removeFirst pkt.packet_id q.inflight ∧
    (pkt_ack q pkt).queues.inflight_order = rest ∧
    (pkt_ack q pkt).queues.waiters = q.waiters ∧
    (pkt_ack q pkt).delivered = none ∧
    (pkt_ack q pkt).woken = false := by
  simp [pkt_ack, horder, pktAckLoop, hnz, hfound, hmatch]

/-- C8 witness: the amended statement at a concrete state. -/
theorem pkt_ack_unexpected_state_witness :
    (pkt_ack ⟨[(3, .subscribe), (4, .publish)], [3, 4], [true]⟩ ⟨3, .publishAck⟩).res
      = some (.unexpected .publishAck "Subscribe") ∧
    (pkt_ack ⟨[(3, .subscribe), (4, .publish)], [3, 4], [true]⟩ ⟨3, .publishAck⟩).queues.inflight
      = removeFirst 3 [(3, .subscribe), (4, .publish)] ∧
    (pkt_ack ⟨[(3, .subscribe), (4, .publish)], [3, 4],
        [true]⟩ ⟨3, .publishAck⟩).queues.inflight_order = [4] ∧
    (pkt_ack ⟨[(3, .subscribe), (4, .publish)], [3, 4],
        [true]⟩ ⟨3, .publishAck⟩).queues.waiters = [true] ∧
    (pkt_ack ⟨[(3, .subscribe), (4, .publish)], [3, 4], [true]⟩ ⟨3, .publishAck⟩).delivered
      = none ∧
    (pkt_ack ⟨[(3, .subscribe), (4, .publish)], [3, 4], [true]⟩ ⟨3, .publishAck⟩).woken
      = false :=
  pkt_ack_unexpected_state ⟨[(3, .subscribe), (4, .publish)], [3, 4], [true]⟩
    ⟨3, .publishAck⟩ [4] .subscribe rfl (by decide) (by decide) (by decide)

/-- C5 (counterexample): with `cap = 1` and two inflight entries, `credit` is
the underflowing subtraction (`none`), not the saturated value `0` the claim
promises. -/
theorem credit_underflow_cex : credit 1 2 = none ∧ credit 1 2 ≠ some 0 := by
  decide

/-- C5 (amended): `credit()` returns `cap - |inflight|` whenever
`|inflight| ≤ cap`; when the inflight count exceeds `cap` the unchecked
subtraction underflows (a Rust program error) instead of saturating at 0. -/
theorem credit_spec (cap n : Nat) :
    (n ≤ cap → credit cap n = some (cap - n)) ∧ (cap < n → credit cap n = none) := by
  refine ⟨fun h => ?_, fun h => ?_⟩
  · simp [credit, h]
  · simp [credit, show ¬ n ≤ cap by omega]

/-- C5 witness: in-range and underflowing instances of the amended claim. -/
theorem credit_spec_witness : credit 3 1 = some 2 ∧ credit 1 2 = none :=
  ⟨(credit_spec 3 1).1 (by decide), (credit_spec 1 2).2 (by decide)⟩

/-- Helper: once the loop runs with `dup = true`, every subsequently encoded
PUBLISH carries `dup = true`. -/
theorem qos1Loop_true_all (encodeOk : Nat → Bool) :
    ∀ (recvs : List RecvOutcome) (k : Nat),
      ((qos1Loop encodeOk true k recvs).2).all (fun b => b) = true := by
  intro recvs
  induction recvs with
  | nil => intro k; simp [qos1Loop]
  | cons r rest ih =>
    intro k
    by_cases he : encodeOk k
    · cases r with
      | ack reason => cases reason <;> simp [qos1Loop, he]
      | closed => simp [qos1Loop, he]
      | tout => simp [qos1Loop, he, ih (k + 1)]
    · simp [qos1Loop, he]

/-- Helper: the first encoded PUBLISH carries exactly the builder's `dup`
flag. -/
theorem qos1Loop_encodes_head (encodeOk : Nat → Bool) :
    ∀ (recvs : List RecvOutcome) (dup : Bool) (k : Nat),
      ((qos1Loop encodeOk dup k recvs).2).head? = some dup := by
  intro recvs dup k
  cases recvs with
  | nil => simp [qos1Loop]
  | cons r rest =>
    by_cases he : encodeOk k
    · cases r with
      | ack reason => cases reason <;> simp [qos1Loop, he]
      | closed => simp [qos1Loop, he]
      | tout => simp [qos1Loop, he]
    · simp [qos1Loop, he]

/-- Helper: every encoded PUBLISH after the first carries `dup = true`. -/
theorem qos1Loop_encodes_tail_true (encodeOk : Nat → Bool) :
    ∀ (recvs : List RecvOutcome) (dup : Bool) (k : Nat),
      ((qos1Loop encodeOk dup k recvs).2).tail.all (fun b => b) = true := by
  intro recvs dup k
  cases recvs with
  | nil => simp [qos1Loop]
  | cons r rest =>
    by_cases he : encodeOk k
    · cases r with
      | ack reason => cases reason <;> simp [qos1Loop, he]
      | closed => simp [qos1Loop, he]
      | tout => simp [qos1Loop, he, qos1Loop_true_all encodeOk rest (k + 1)]
    · simp [qos1Loop, he]

/-- C6: for a QoS-1 publish whose builder did not set `dup`, the first encoded
PUBLISH has `dup = false`, and every PUBLISH re-encoded after an ack timeout
(the second and later attempts) has `dup = true`; this holds for every
sequence of encode results and await outcomes. -/
theorem qos1_dup_flags (q : Queues) (idx : Nat) (encodeOk : Nat → Bool)
    (recvs : List RecvOutcome) (hreg : q.inflight.lookup idx = none) :
    (send_at_least_once_inner q idx false encodeOk recvs).encodes.head? = some false ∧
    ((send_at_least_once_inner q idx false encodeOk recvs).encodes).tail.all
      (fun b => b) = true := by
  simp only [send_at_least_once_inner, hreg, Option.isSome_none, Bool.false_eq_true,
    if_false]
  exact ⟨qos1Loop_encodes_head encodeOk recvs false 0,
    qos1Loop_encodes_tail_true encodeOk recvs false 0⟩

/-- C6 witness: one timeout then a successful ack — the trace is
`[false, true]`. -/
theorem qos1_dup_flags_witness :
    (send_at_least_once_inner ⟨[], [], []⟩ 1 false (fun _ => true)
      [.tout, .ack .success]).encodes.head? = some false ∧
    ((send_at_least_once_inner ⟨[], [], []⟩ 1 false (fun _ => true)
      [.tout, .ack .success]).encodes).tail.all (fun b => b) = true :=
  qos1_dup_flags ⟨[], [], []⟩ 1 (fun _ => true) [.tout, .ack .success] rfl

/-- C9 (counterexample): a QoS-1 publish with id 1 whose first `io.encode`
fails leaves `inflight_order = [1]` — the id itself, with no sentinel `0`
anywhere — while the claim says the slot is replaced by the sentinel `0`. -/
theorem qos1_encode_err_no_tombstone_cex :
    (send_at_least_once_inner ⟨[], [], []⟩ 1 false (fun _ => false) []).result
      = .encodeErr ∧
    (send_at_least_once_inner ⟨[], [], []⟩ 1 false (fun _ => false)
      []).queues.inflight_order = [1] ∧
    ¬ (0 ∈ (send_at_least_once_inner ⟨[], [], []⟩ 1 false (fun _ => false)
      []).queues.inflight_order) := by
  decide

/-- C9 (amended): when `io.encode` fails after the packet id was registered,
the future fails with the encode error and the registered slot keeps the id
itself: the entry is still in `inflight` and `inflight_order` ends with the
id — no sentinel `0` is written by this path (the sentinel skip in `pkt_ack`
is dead code as far as this path is concerned). -/
theorem qos1_encode_err_state (q : Queues) (idx : Nat) (dup0 : Bool)
    (encodeOk : Nat → Bool) (recvs : List RecvOutcome)
    (hreg : q.inflight.lookup idx = none) (henc : encodeOk 0 = false) :
    (send_at_least_once_inner q idx dup0 encodeOk recvs).result = .encodeErr ∧
    (send_at_least_once_inner q idx dup0 encodeOk recvs).queues.inflight
      = (idx, .publish) :: q.inflight ∧
    (send_at_least_once_inner q idx dup0 encodeOk recvs).queues.inflight_order
      = q.inflight_order ++ [idx] := by
  cases recvs <;> simp [send_at_least_once_inner, hreg, qos1Loop, henc]

/-- C9 witness: the amended statement at a concrete failing encode. -/
theorem qos1_encode_err_state_witness :
    (send_at_least_once_inner ⟨[], [], []⟩ 2 false (fun _ => false) [.tout]).result
      = .encodeErr ∧
    (send_at_least_once_inner ⟨[], [], []⟩ 2 false (fun _ => false)
      [.tout]).queues.inflight = [(2, .publish)] ∧
    (send_at_least_once_inner ⟨[], [], []⟩ 2 false (fun _ => false)
      [.tout]).queues.inflight_order = [2] :=
  qos1_encode_err_state ⟨[], [], []⟩ 2 false (fun _ => false) [.tout] rfl rfl

/-- C2: a QoS-2 publish whose phase-1 ack (PUBREC) carries the non-success
reason `UnspecifiedError` nevertheless enters phase 2 (the PUBREL
re-registration and loop run) and, with a successful PUBCOMP, resolves `ok` —
not `Fail` with the phase-1 ack.  The source never inspects the phase-1
reason code (`src/v5/sink.rs:435-443`). -/
theorem qos2_phase1_fail_enters_phase2 :
    (send_exactly_once_inner ⟨[], [], []⟩ 1 false [] (fun _ => true) (fun _ => true)
        [.ack .unspecifiedError] [.ack .success]).phase2Entered = true ∧
    (send_exactly_once_inner ⟨[], [], []⟩ 1 false [] (fun _ => true) (fun _ => true)
        [.ack .unspecifiedError] [.ack .success]).result = .ok ∧
    (send_exactly_once_inner ⟨[], [], []⟩ 1 false [] (fun _ => true) (fun _ => true)
        [.ack .unspecifiedError] [.ack .success]).result ≠ .fail .unspecifiedError := by
  decide

/-- C3 (counterexample): the v5 default control service does NOT ack `Closed`
with its built-in ack — `Closed` falls into the catch-all and yields a
`Disconnect` with reason `UnspecifiedError`. -/
theorem v5_closed_not_acked_cex :
    v5ControlCall .closed = .disconnectWith .unspecifiedError ∧
    v5ControlCall .closed ≠ .builtinAck .closed := by
  decide

/-- C3 (amended): the v3 default acks `Ping`, `Disconnect` and `Closed` with
their built-in acks and answers every other variant with
`ControlResult { kind: Disconnect }`; the v5 default acks only `Ping` and
`Disconnect`, and answers every other variant — `Closed` included — with a
`Disconnect` carrying reason code `UnspecifiedError`. -/
theorem default_control_dispatch :
    v3ControlCall .ping = .builtinAck .ping ∧
    v3ControlCall .disconnect = .builtinAck .disconnect ∧
    v3ControlCall .closed = .builtinAck .closed ∧
    (∀ m : ControlMessage, m ≠ .ping → m ≠ .disconnect → m ≠ .closed →
      v3ControlCall m = .disconnect) ∧
    v5ControlCall .ping = .builtinAck .ping ∧
    v5ControlCall .disconnect = .builtinAck .disconnect ∧
    (∀ m : ControlMessage, m ≠ .ping → m ≠ .disconnect →
      v5ControlCall m = .disconnectWith .unspecifiedError) := by
  refine ⟨rfl, rfl, rfl, fun m h1 h2 h3 => ?_, rfl, rfl, fun m h1 h2 => ?_⟩ <;>
    cases m <;> simp_all [v3ControlCall, v5ControlCall]

/-- C3 witness: the amended dispatch at `Subscribe` (v3) and `Closed` (v5). -/
theorem default_control_dispatch_witness :
    v3ControlCall .subscribe = .disconnect ∧
    v5ControlCall .closed = .disconnectWith .unspecifiedError :=
  ⟨default_control_dispatch.2.2.2.1 .subscribe (by decide) (by decide) (by decide),
   default_control_dispatch.2.2.2.2.2.2 .closed (by decide) (by decide)⟩

/-- C4: when the factory construction fails, `create_handler` completes with
the error while `creating` is still `true` and the shared waker has NOT been
woken (the `?` on `new_service(..).await` returns before the wake/reset at
`src/v5/router.rs:151-159`), so tasks parked in `poll_ready` stay pending
forever — contradicting the claim that every completed execution resets the
flag and wakes the waker. -/
theorem create_handler_factory_err_leaks :
    (create_handler (Except.error 7 : Except Nat Unit) (Except.ok ())
        (Except.ok () : Except Nat Unit) 0 ⟨false, 0, [none]⟩).1.creating = true ∧
    (create_handler (Except.error 7 : Except Nat Unit) (Except.ok ())
        (Except.ok () : Except Nat Unit) 0 ⟨false, 0, [none]⟩).1.wakeCount = 0 ∧
    (create_handler (Except.error 7 : Except Nat Unit) (Except.ok ())
        (Except.ok () : Except Nat Unit) 0 ⟨false, 0, [none]⟩).2 = Except.error 7 :=
  ⟨rfl, rfl, rfl⟩

/-- C10: if a publish with non-empty topic `t` and `topic_alias = a` matched a
pattern (handler index `i`, canonical topic `ct`), then a later publish with
empty topic and the same alias is dispatched to the same handler index with
the canonical topic, leaving the alias cache unchanged — and this holds for
EVERY pattern matcher `g` at the second call, i.e. the pattern set is not
re-matched. -/
theorem router_alias_dispatch (f g : Topic → Option (Nat × Topic))
    (st : RouterAliases) (t ct : Topic) (a i : Nat)
    (ht : t ≠ "") (hrec : f t = some (i, ct)) :
    (routerCall f st t (some a)).2 = .handler i ct ∧
    routerCall g (routerCall f st t (some a)).1 "" (some a)
      = ((routerCall f st t (some a)).1, .handler i ct) := by
  have h1 : routerCall f st t (some a) = (st.insert a i ct, .handler i ct) := by
    simp [routerCall, ht, hrec]
  rw [h1]
  exact ⟨rfl, by simp [routerCall, RouterAliases.insert, List.lookup]⟩

/-- C10 witness: alias 7 first paired with `"x/y"` (handler 2); the following
empty-topic publish with alias 7 dispatches to handler 2 with topic `"x/y"`
even under a matcher that recognizes nothing. -/
theorem router_alias_dispatch_witness :
    (routerCall (fun s => if s = "x/y" then some (2, "x/y") else none) ⟨[]⟩ "x/y"
        (some 7)).2 = .handler 2 "x/y" ∧
    routerCall (fun _ => none)
        (routerCall (fun s => if s = "x/y" then some (2, "x/y") else none) ⟨[]⟩ "x/y"
          (some 7)).1 "" (some 7)
      = ((routerCall (fun s => if s = "x/y" then some (2, "x/y") else none) ⟨[]⟩ "x/y"
          (some 7)).1, .handler 2 "x/y") :=
  router_alias_dispatch (fun s => if s = "x/y" then some (2, "x/y") else none)
    (fun _ => none) ⟨[]⟩ "x/y" "x/y" 7 2 (by decide) (by simp)

end NtexMqtt
